import Mathlib

/-!
Shallow embedding of the trendwatcher core analytical engine
(entity extraction, food-relevance filtering, fuzzy clustering,
five-dimensional trend scoring, and the weekly history store),
together with theorems settling the specification claims.

Modelling conventions:
* Python `str` values are embedded as `List Char`.  Python's Unicode-aware
  case folding, `\w`, `\s` and `\d` are modelled for ASCII plus the
  Latin-1/Latin-extended letters that actually occur in the source's
  dictionaries and regular expressions (the accented characters listed in
  `normalize`'s character class, `ö`, `Œ/œ`, `Ÿ`); characters outside that
  range are treated as non-letters.
* Python `float` values are embedded as exact rationals `ℚ`; `round(x, 2)`
  is embedded as exact round-half-to-even at two decimals (`round2`).
* Regular expressions are embedded by a small backtracking engine (`RE`,
  `reM`) with Python semantics: leftmost search, greedy quantifiers with
  backtracking, word boundaries, `$` matching at the end or before a final
  newline, capturing groups keeping the last match.
* Python `dict` iteration is insertion-ordered and is modelled with
  association lists.  Python `set` iteration order is NOT fixed by the
  language (string hashing is randomised per process); where the source
  iterates over a set literal we model the iteration order either as the
  source-text order or, where the order is observable in results
  (`SOFT_STOPWORDS`), as an explicit parameter.
* The wall clock (`datetime.now`) is passed explicitly (`now`, in seconds),
  and ISO-timestamp parsing of `first_seen` values is abstracted as
  pre-parsed `Option ℤ` epoch values (a `none` models an unparseable
  timestamp string).
* The filesystem used by the history store is explicit state: a map from
  week identifier (= the `trends_{week}.jsonl` file) to its rows.
-/

/-- Convert a string literal to the `List Char` representation used
throughout this development. -/
def lstr (s : String) : List Char := s.toList

/-- The apostrophe character, used in a few dictionary entries. -/
def apoC : Char := '\''

/-- Python `str.lower` restricted to ASCII and the Latin-1 / Latin-extended
letters used by the source (`À`–`Þ` except `×`, `Œ`, `Ÿ`). -/
def pyLowerChar (c : Char) : Char :=
  if 'A' ≤ c ∧ c ≤ 'Z' then Char.ofNat (c.toNat + 32)
  else if 0xC0 ≤ c.toNat ∧ c.toNat ≤ 0xDE ∧ c.toNat ≠ 0xD7 then Char.ofNat (c.toNat + 32)
  else if c.toNat = 0x152 then Char.ofNat 0x153
  else if c.toNat = 0x178 then Char.ofNat 0xFF
  else c

/-- Python `\s` (whitespace), ASCII scope. -/
def isSpaceChar (c : Char) : Bool :=
  c = ' ' ∨ c = '\t' ∨ c = '\n' ∨ c = '\r' ∨ c = '\x0b' ∨ c = '\x0c'

/-- Latin-1 / Latin-extended letters (the accented letters appearing in the
source's dictionaries and character classes). -/
def isLatinExtChar (c : Char) : Bool :=
  (0xC0 ≤ c.toNat ∧ c.toNat ≤ 0xFF ∧ c.toNat ≠ 0xD7 ∧ c.toNat ≠ 0xF7)
    ∨ c.toNat = 0x152 ∨ c.toNat = 0x153 ∨ c.toNat = 0x178

/-- Python `\w` with `re.UNICODE`, modelled for ASCII alphanumerics, `_`,
and the Latin letters of `isLatinExtChar`. -/
def isWordChar (c : Char) : Bool :=
  c.isAlphanum ∨ c = '_' ∨ isLatinExtChar c

/-- Python `\d`, ASCII scope. -/
def isDigitChar (c : Char) : Bool := '0' ≤ c ∧ c ≤ '9'

/-- Python `str.lower` on a whole string. -/
def pyLower (s : List Char) : List Char := s.map pyLowerChar

/-- Python `str.strip()` (strip whitespace from both ends). -/
def pyStrip (s : List Char) : List Char :=
  (((s.dropWhile isSpaceChar).reverse).dropWhile isSpaceChar).reverse

/-- Python `str.strip(chars)` (strip any of the given characters from both
ends). -/
def pyStripChars (cs : List Char) (s : List Char) : List Char :=
  (((s.dropWhile (· ∈ cs)).reverse).dropWhile (· ∈ cs)).reverse

/-- Python substring containment `pat in hay` (contiguous substring;
the empty pattern is contained in everything). -/
def containsSub (hay pat : List Char) : Bool :=
  if pat.isPrefixOf hay then true
  else
    match hay with
    | [] => false
    | _ :: t => containsSub t pat

/-- Fuelled worker for Python `str.split()` (split on whitespace runs,
discarding empty fields). -/
def splitWSF : Nat → List Char → List (List Char)
  | 0, _ => []
  | _ + 1, [] => []
  | fuel + 1, c :: t =>
    if isSpaceChar c then splitWSF fuel t
    else
      (c :: t.takeWhile (fun x => ¬ isSpaceChar x)) ::
        splitWSF fuel (t.dropWhile (fun x => ¬ isSpaceChar x))

/-- Python `str.split()` with no arguments. -/
def splitWS (s : List Char) : List (List Char) := splitWSF (s.length + 1) s

/-- Fuelled worker for Python `str.replace` (all non-overlapping
occurrences, left to right, scanning continues after the replacement). -/
def pyReplaceF (pat rep : List Char) : Nat → List Char → List Char
  | 0, s => s
  | fuel + 1, s =>
    if pat ≠ [] ∧ pat.isPrefixOf s then rep ++ pyReplaceF pat rep fuel (s.drop pat.length)
    else
      match s with
      | [] => []
      | c :: t => c :: pyReplaceF pat rep fuel t

/-- Python `s.replace(pat, rep)` (for non-empty `pat`, the only case the
source uses). -/
def pyReplace (s pat rep : List Char) : List Char := pyReplaceF pat rep (s.length + 1) s

/-- Fuelled worker collapsing each maximal whitespace run to one space
(Python `re.sub(r"\s+", " ", t)`). -/
def collapseWSF : Nat → List Char → List Char
  | 0, s => s
  | _ + 1, [] => []
  | fuel + 1, c :: t =>
    if isSpaceChar c then ' ' :: collapseWSF fuel (t.dropWhile isSpaceChar)
    else c :: collapseWSF fuel t

/-- Python `re.sub(r"\s+", " ", t)`. -/
def collapseWS (s : List Char) : List Char := collapseWSF (s.length + 1) s

/-- Abstract syntax of the regular-expression fragment used by the source.
Quantifiers are bounded (`rep lo hi`); unbounded `*`, `+`, `{n,}` are
instantiated with the input length as upper bound at the call sites, which
is equivalent because every repeated body consumes at least one
character. -/
inductive RE where
  | emp
  | chr (p : Char → Bool)
  | cat (a b : RE)
  | alt (a b : RE)
  | rep (a : RE) (lo hi : Nat)
  | wordB
  | bos
  | eos
  | grp (n : Nat) (a : RE)

/-- Capture records `(group index, start, end)`, most recent first. -/
abbrev Caps := List (Nat × Nat × Nat)

/-- Python `\b`: positions where exactly one neighbour is a word
character. -/
def wordBoundaryAt (inp : List Char) (pos : Nat) : Bool :=
  let w : Nat → Bool := fun i =>
    match inp[i]? with
    | some c => isWordChar c
    | none => false
  (if pos = 0 then false else w (pos - 1)) ≠ w pos

/-- Backtracking matcher in continuation-passing style.  Branches are
explored in Python's preference order (alternation left first, greedy
quantifiers longest first), so the first success is the match Python
returns.  The fuel bounds the recursion depth; all call sites supply
enough fuel that it is never exhausted for the fixed patterns below. -/
def reM (inp : List Char) :
    Nat → RE → Nat → Caps → (Nat → Caps → Option (Nat × Caps)) → Option (Nat × Caps)
  | 0, _, _, _, _ => none
  | fuel + 1, r, pos, caps, k =>
    match r with
    | .emp => k pos caps
    | .chr p =>
      match inp[pos]? with
      | some c => if p c then k (pos + 1) caps else none
      | none => none
    | .cat a b => reM inp fuel a pos caps (fun p c => reM inp fuel b p c k)
    | .alt a b =>
      (reM inp fuel a pos caps k).orElse (fun _ => reM inp fuel b pos caps k)
    | .rep a lo hi =>
      if hi = 0 then (if lo = 0 then k pos caps else none)
      else
        (reM inp fuel a pos caps
            (fun p c => reM inp fuel (.rep a (lo - 1) (hi - 1)) p c k)).orElse
          (fun _ => if lo = 0 then k pos caps else none)
    | .wordB => if wordBoundaryAt inp pos then k pos caps else none
    | .bos => if pos = 0 then k pos caps else none
    | .eos =>
      if pos = inp.length ∨ (pos + 1 = inp.length ∧ inp[pos]? = some '\n') then
        k pos caps
      else none
    | .grp n a => reM inp fuel a pos caps (fun p c => k p ((n, pos, p) :: c))

/-- Fuel sufficient for the fixed patterns of this development. -/
def reFuel (inp : List Char) : Nat := 8 * inp.length + 800

/-- Try to match `r` anchored at position `pos`; returns the end position
and captures of the match Python would produce there. -/
def reTryAt (inp : List Char) (r : RE) (pos : Nat) : Option (Nat × Caps) :=
  reM inp (reFuel inp) r pos [] (fun p c => some (p, c))

/-- Worker for `reSearch`: try successive start positions. -/
def reSearchAux (inp : List Char) (r : RE) : Nat → Nat → Option (Nat × Nat × Caps)
  | 0, _ => none
  | rem + 1, start =>
    match reTryAt inp r start with
    | some (e, c) => some (start, e, c)
    | none => reSearchAux inp r rem (start + 1)

/-- Python `re.search`: leftmost match, with its span and captures. -/
def reSearch (inp : List Char) (r : RE) : Option (Nat × Nat × Caps) :=
  reSearchAux inp r (inp.length + 1) 0

/-- Truthiness of `re.search` (used by all the filter predicates). -/
def reTest (inp : List Char) (r : RE) : Bool := (reSearch inp r).isSome

/-- Worker for `reFindAll`: repeated non-overlapping leftmost search,
resuming after each match (advancing one position past an empty match). -/
def reFindAllAux (inp : List Char) (r : RE) : Nat → Nat → List (Nat × Nat × Caps)
  | 0, _ => []
  | rem + 1, start =>
    match reSearchAux inp r (inp.length + 1 - start) start with
    | none => []
    | some (s, e, c) =>
      (s, e, c) :: reFindAllAux inp r rem (if s < e then e else e + 1)

/-- Python `re.findall` (match spans and captures, in order). -/
def reFindAll (inp : List Char) (r : RE) : List (Nat × Nat × Caps) :=
  reFindAllAux inp r (inp.length + 2) 0

/-- Python `match.group(n)`’s span: the most recent record for group `n`. -/
def capGet (caps : Caps) (n : Nat) : Option (Nat × Nat) :=
  match caps.find? (fun t => t.1 = n) with
  | some t => some t.2
  | none => none

/-- The substring of `inp` from position `a` (inclusive) to `b`
(exclusive). -/
def sliceL (inp : List Char) (a b : Nat) : List Char := (inp.drop a).take (b - a)

/-- Literal-string pattern. -/
def reStr (s : List Char) : RE :=
  s.foldr (fun c acc => RE.cat (RE.chr (fun x => x = c)) acc) RE.emp

/-- Alternation of a non-empty list of patterns, in source order. -/
def reAltL : List RE → RE
  | [] => RE.chr (fun _ => false)
  | [r] => r
  | r :: rest => RE.alt r (reAltL rest)

/-- Alternation of literal words. -/
def reWords (ws : List (List Char)) : RE := reAltL (ws.map reStr)

/-- `p?` -/
def reOpt (r : RE) : RE := RE.rep r 0 1

/-- `p+` with explicit bound. -/
def rePlus (r : RE) (n : Nat) : RE := RE.rep r 1 n

/-- `p*` with explicit bound. -/
def reStar (r : RE) (n : Nat) : RE := RE.rep r 0 n

/-- `.` (any character except newline). -/
def reDot : RE := RE.chr (fun c => c ≠ '\n')

/-- `\s` as a pattern. -/
def reSp : RE := RE.chr isSpaceChar

/-- `\w` as a pattern. -/
def reWord : RE := RE.chr isWordChar

/-- `\d` as a pattern. -/
def reDigit : RE := RE.chr isDigitChar

namespace EntityExtractor

/-- An extracted food entity (`entity_extractor.Entity`). -/
structure Entity where
  name : List Char
  type : List Char
  confidence : ℚ
deriving DecidableEq, Repr

/-- `INGREDIENT_VARIETIES`, flattened in source order and deduplicated
(the source lowercases each item — they are already lowercase — and
collects them into the set `ALL_SPECIFIC_INGREDIENTS`; set iteration order
is modelled as source order, which is observable only in tie-breaks of the
best-entity choice). -/
def ALL_SPECIFIC_INGREDIENTS : List (List Char) :=
  (([ "scamorza", "burrata", "stracciatella", "halloumi", "feta",
      "manchego", "gruyere", "comte", "pecorino", "gorgonzola",
      "taleggio", "fontina", "provolone", "mascarpone",
      "gochugaru", "gochujang", "calabrian chili", "aleppo pepper",
      "urfa biber", "kashmiri chili", "guajillo", "chipotle",
      "chili crisp", "chili oil", "harissa",
      "maldon salt", "fleur de sel", "himalayan pink salt",
      "black lava salt", "smoked salt", "sel gris",
      "black garlic vinegar", "champagne vinegar", "sherry vinegar",
      "rice vinegar", "apple cider vinegar", "balsamic vinegar",
      "truffle oil", "sesame oil", "chili oil", "avocado oil",
      "grapeseed oil", "walnut oil", "pumpkin seed oil",
      "gochujang", "miso", "tahini", "harissa", "sriracha",
      "kimchi", "ponzu", "hoisin", "kewpie mayo", "yuzu kosho",
      "honey butter", "date syrup", "maple syrup", "agave",
      "monk fruit", "stevia", "coconut sugar" ] : List String).map lstr).dedup

/-- `PRODUCT_FORMATS` (source order). -/
def PRODUCT_FORMATS : List (List Char) :=
  ([ "rtd", "frozen", "tinned", "canned", "jarred", "powdered", "instant",
     "dried", "smoked", "fermented", "pickled", "protein bar",
     "protein powder", "protein pudding", "protein ice cream",
     "meal kit", "meal prep" ] : List String).map lstr

/-- `EQUIPMENT` (source order). -/
def EQUIPMENT : List (List Char) :=
  ([ "air fryer", "instant pot", "sous vide", "slow cooker",
     "rice cooker", "food processor" ] : List String).map lstr

/-- `VIRAL_PRODUCTS` (source order). -/
def VIRAL_PRODUCTS : List (List Char) :=
  ([ "dubai chocolate", "pink sauce", "sleepy girl mocktail",
     "internal shower drink", "cottage cheese ice cream",
     "cucumber salad", "biscoff", "kewpie", "maldon" ] : List String).map lstr

/-- The curated food-term allow-list of pattern 5. -/
def FOOD_TERMS_P5 : List (List Char) :=
  ([ "chocolate", "cheese", "sauce", "oil", "salt", "mayo", "mayonnaise",
     "butter", "milk", "cream", "yogurt", "bbq", "chicken", "beef",
     "noodle", "noodles", "curry", "soup", "salad", "tart", "cake",
     "cookie", "ice cream", "pudding", "bar", "drink", "latte", "tea" ] : List String).map lstr

/-- Pattern 4: `\b{format}\s+[\w\s]{3,30}\b`. -/
def fmtRE (f : List Char) (n : Nat) : RE :=
  RE.cat RE.wordB (RE.cat (reStr f)
    (RE.cat (rePlus reSp n)
      (RE.cat (RE.rep (RE.chr (fun c => isWordChar c ∨ isSpaceChar c)) 3 30) RE.wordB)))

/-- `[A-Z]` -/
def reAZupper : RE := RE.chr (fun c => 'A' ≤ c ∧ c ≤ 'Z')

/-- `[a-z]` -/
def reAZlower : RE := RE.chr (fun c => 'a' ≤ c ∧ c ≤ 'z')

/-- Pattern 5: `\b([A-Z][a-z]+(?:\s+[A-Z][a-z]+)?)\s+([a-z]+)\b`. -/
def properNounRE (n : Nat) : RE :=
  RE.cat RE.wordB
    (RE.cat (RE.grp 1 (RE.cat reAZupper (RE.cat (rePlus reAZlower n)
        (reOpt (RE.cat (rePlus reSp n) (RE.cat reAZupper (rePlus reAZlower n)))))))
      (RE.cat (rePlus reSp n) (RE.cat (RE.grp 2 (rePlus reAZlower n)) RE.wordB)))

/-- One step of the `seen_names` deduplication: first occurrence of a name
keeps its position; a later entity with the same name replaces it only
when strictly more confident. -/
def insEntity (acc : List Entity) (e : Entity) : List Entity :=
  match acc.find? (fun x => x.name = e.name) with
  | none => acc ++ [e]
  | some x =>
    if x.confidence < e.confidence then
      acc.map (fun y => if y.name = e.name then e else y)
    else acc

/-- The `seen_names` deduplication of `extract_entities` (dict keyed by
entity name, insertion-ordered, higher confidence wins). -/
def dedupEntities (es : List Entity) : List Entity := es.foldl insEntity []

/-- `entity_extractor.extract_entities`. -/
def extract_entities (query : List Char) : List Entity :=
  if query.length < 3 then []
  else
    let query_lower := pyStrip (pyLower query)
    let e1 := VIRAL_PRODUCTS.filterMap fun p =>
      if containsSub query_lower p then
        some ⟨p, lstr "branded_product", 1⟩
      else none
    let e2 := EQUIPMENT.filterMap fun eq =>
      if containsSub query_lower eq then
        some ⟨eq, lstr "equipment", 1⟩
      else none
    let e3 := ALL_SPECIFIC_INGREDIENTS.filterMap fun ing =>
      if containsSub query_lower ing then
        some ⟨ing, lstr "ingredient_variety", mkRat 9 10⟩
      else none
    let e4 := PRODUCT_FORMATS.filterMap fun f =>
      if containsSub query_lower f then
        match reSearch query_lower (fmtRE f query_lower.length) with
        | some (s, e, _) =>
          some ⟨pyStrip (sliceL query_lower s e), lstr "product_format", mkRat 4 5⟩
        | none => none
      else none
    let e5 := (reFindAll query (properNounRE query.length)).filterMap fun m =>
      match capGet m.2.2 1, capGet m.2.2 2 with
      | some (a1, b1), some (a2, b2) =>
        let proper_part := sliceL query a1 b1
        let food_part := sliceL query a2 b2
        if FOOD_TERMS_P5.any (fun t => t = pyLower food_part) then
          some ⟨pyLower (proper_part ++ [' '] ++ food_part), lstr "branded_product", mkRat 7 10⟩
        else none
      | _, _ => none
    dedupEntities (e1 ++ e2 ++ e3 ++ e4 ++ e5)

/-- `GENERIC_VETO` (source order). -/
def GENERIC_VETO : List (List Char) :=
  ([ "chocolate", "cheese", "chicken", "beef", "pork", "salmon",
     "recipe", "recipes", "food", "cooking", "dinner", "lunch",
     "breakfast", "snack", "dessert", "appetizer" ] : List String).map lstr

/-- `LISTICLE_PATTERNS`, transliterated one for one in source order
(`n` bounds the unbounded quantifiers by the input length). -/
def LISTICLE_RES (n : Nat) : List RE :=
  [ RE.cat RE.bos (RE.cat (RE.rep reDigit 2 n) (rePlus reSp n)),
    RE.cat (rePlus reDigit n) (RE.cat (rePlus reSp n)
      (reWords ((["ways", "recipes", "ideas", "tips", "tricks", "hacks",
        "secrets", "things", "items"] : List String).map lstr))),
    RE.cat (rePlus reSp n) (RE.cat (reStr (lstr "ideas")) RE.eos),
    RE.cat RE.bos (RE.cat (reStr (lstr "best")) (rePlus reSp n)),
    RE.cat RE.bos (RE.cat (reStr (lstr "top")) (RE.cat (rePlus reSp n) (rePlus reDigit n))),
    RE.cat RE.bos (RE.cat (reStr (lstr "how to")) (rePlus reSp n)),
    RE.cat RE.bos (RE.cat (reStr (lstr "why")) (rePlus reSp n)),
    RE.cat RE.bos (RE.cat (reStr (lstr "what")) (rePlus reSp n)),
    RE.cat RE.bos (RE.cat (reStr (lstr "has")) (RE.cat (rePlus reSp n)
      (RE.cat (rePlus reWord n) (RE.cat (rePlus reSp n)
        (reWords [lstr "changed", lstr "actually"]))))),
    RE.cat RE.bos (RE.cat (reStr (lstr "is")) (RE.cat (rePlus reSp n)
      (RE.cat (rePlus reWord n) (RE.cat (rePlus reSp n)
        (reWords [lstr "still", lstr "really"]))))),
    RE.cat RE.bos (RE.cat (reStr (lstr "should")) (RE.cat (rePlus reSp n) (reStr (lstr "you")))),
    RE.cat (reStr (lstr "the")) (RE.cat (rePlus reSp n)
      (RE.cat (reStr (lstr "best")) (rePlus reSp n))),
    RE.cat (reStr (lstr "the")) (RE.cat (rePlus reSp n)
      (RE.cat (RE.rep reDigit 2 n) (rePlus reSp n))),
    RE.cat (reStr (lstr "you")) (RE.cat (rePlus reSp n)
      (RE.cat (reStr (lstr "need")) (RE.cat (rePlus reSp n)
        (RE.cat (reStr (lstr "to")) (RE.cat (rePlus reSp n)
          (reWords [lstr "know", lstr "try", lstr "make"])))))),
    RE.cat (reStr (lstr "we")) (RE.cat (rePlus reSp n)
      (reWords ((["made", "love", "tested", "tried", "published"] : List String).map lstr))),
    RE.cat (reStr (lstr "our")) (RE.cat (rePlus reSp n) (reStr (lstr "editors"))),
    RE.cat (RE.cat (reStr (lstr "editor")) (reOpt (reStr (lstr "s"))))
      (RE.cat (rePlus reSp n)
        (reAltL [RE.cat (reStr (lstr "pick")) (reOpt (reStr (lstr "s"))),
          reStr (lstr "choice"), reStr (lstr "favorite"), reStr (lstr "make")])),
    RE.cat (reStr (lstr "guide")) (RE.cat (rePlus reSp n) (reStr (lstr "to"))),
    RE.cat (reStr (lstr "everything")) (RE.cat (rePlus reSp n)
      (RE.cat (reStr (lstr "you")) (RE.cat (rePlus reSp n) (reStr (lstr "need"))))),
    RE.cat (reStr (lstr "that")) (RE.cat (rePlus reSp n)
      (RE.cat (reWords [lstr "dont", lstr "doesn" ++ [apoC] ++ lstr "t",
        lstr "wont", lstr "won" ++ [apoC] ++ lstr "t"])
        (RE.cat (rePlus reSp n) (reStr (lstr "taste"))))),
    RE.cat (reWords [lstr "more", lstr "and"]) (RE.cat (rePlus reSp n)
      (RE.cat (reStr (lstr "recipes")) (RE.cat (rePlus reSp n) (reStr (lstr "we"))))) ]

/-- `entity_extractor.should_skip_generic`. -/
def should_skip_generic (query : List Char) : Bool :=
  let query_lower := pyStrip (pyLower query)
  let words := splitWS query_lower
  if words.length = 1 ∧ GENERIC_VETO.any (fun g => words.headD [] = g) then true
  else (LISTICLE_RES query_lower.length).any (fun r => reTest query_lower r)

end EntityExtractor

namespace Extract

/-- `\b s \b` for a literal word or phrase `s`. -/
def bword (s : List Char) : RE := RE.cat RE.wordB (RE.cat (reStr s) RE.wordB)

/-- `LEAD_MARKETS` of `extract_trends` (NOT the same set as the breadth
component's). -/
def LEAD_MARKETS : List (List Char) := ([ "US", "GB", "KR", "JP" ] : List String).map lstr

/-- `TARGET_MARKETS` of `extract_trends`. -/
def TARGET_MARKETS : List (List Char) := ([ "NL", "DE", "FR" ] : List String).map lstr

/-- `SOFT_STOPWORDS` in source-text order.  The source iterates over this
Python set, whose order is process-dependent; functions that observe the
order take it as an explicit parameter and this list is the canonical
content. -/
def SOFT_STOPWORDS : List (List Char) :=
  ([ "near", "me", "best", "easy", "simple",
     "healthy", "healthier", "calories", "kcal",
     "wat", "wat is", "was ist" ] : List String).map lstr
    ++ [lstr "c" ++ [apoC] ++ lstr "est", lstr "comment", lstr "pourquoi"]

/-- `FOOD_HINTS` (source order; the Python set literal repeats a few items,
which is harmless for the containment test). -/
def FOOD_HINTS : List (List Char) :=
  (([ "chicken", "beef", "pork", "salmon", "tuna", "shrimp", "egg", "eggs",
      "tofu", "yoghurt", "yogurt", "cheese", "milk", "butter", "skyr", "kefir",
      "tempeh", "seitan", "halloumi", "feta", "mozzarella", "parmesan",
      "vegan", "plantbased", "plant-based", "veggie", "vegetarian",
      "jackfruit", "chickpea", "lentil", "lentils", "bean", "beans",
      "oat milk", "oatmilk", "almond milk", "soy milk", "coconut milk",
      "bread", "rice", "pasta", "noodle", "noodles", "potato", "potatoes",
      "wrap", "tortilla", "pizza", "burger", "oats", "granola",
      "quinoa", "bulgur", "couscous", "farro", "buckwheat", "soba",
      "avocado", "tomato", "tomatoes", "onion", "onions", "garlic",
      "banana", "bananas", "apple", "apples", "spinach", "broccoli", "lemon",
      "kale", "arugula", "cauliflower", "zucchini", "mushroom", "mushrooms",
      "edamame", "bok choy", "ginger", "turmeric", "cilantro", "basil",
      "soup", "salad", "curry", "stew", "taco", "ramen", "risotto",
      "lasagna", "lasagne", "paella", "dumpling", "dumplings",
      "poke", "bibimbap", "pad thai", "pho", "bao", "gyoza",
      "shakshuka", "falafel", "bowl", "bowls",
      "kimchi", "kombucha", "sauerkraut", "pickled", "fermented",
      "miso", "sourdough",
      "matcha", "gochujang", "tahini", "hummus",
      "sriracha", "hoisin", "sesame", "wasabi", "nori", "seaweed",
      "panko", "mirin", "dashi", "yuzu", "shiso",
      "sumac", "harissa", "dukkah", "labneh",
      "tzatziki",
      "protein", "collagen", "chia", "acai", "spirulina", "moringa",
      "hemp", "flax", "nutritional yeast",
      "bone broth", "ghee", "mct", "adaptogens",
      "keto", "paleo", "low carb", "gluten free", "gluten-free",
      "dairy free", "dairy-free", "sugar free", "organic",
      "sauce", "broth", "paste", "powder", "mix", "dressing", "marinade", "dip",
      "spread", "oil", "vinegar", "seasoning", "spice",
      "roasted", "grilled", "baked", "fried", "steamed", "sauteed",
      "slow cooker", "instant pot", "air fryer", "sous vide",
      "recipe", "recipes", "recept", "recepten", "rezept", "rezepte",
      "recette", "recettes",
      "meal prep", "snack", "snacks", "appetizer", "dessert" ] : List String).map lstr)
    ++ [lstr "za" ++ [apoC] ++ lstr "atar"]

/-- `NONFOOD_VETO` (source order). -/
def NONFOOD_VETO : List (List Char) :=
  (([ "catrice", "maybelline", "loreal", "nyx", "sephora",
      "mascara", "lipstick", "eyeshadow", "foundation", "concealer",
      "skincare", "serum", "moisturizer", "cleanser",
      "rolex", "oyster perpetual", "submariner", "datejust",
      "nike", "adidas", "zara", "h&m", "uniqlo",
      "sneakers", "shoes", "jacket", "jeans", "dress",
      "iphone", "samsung", "galaxy", "pixel", "macbook",
      "laptop", "tablet", "headphones", "airpods",
      "discharge", "infection", "symptom", "medication",
      "pharmacy", "apotheek", "apotheke", "pharmacie" ] : List String).map lstr)
    ++ [lstr "l" ++ [apoC] ++ lstr "oréal"]

/-- The character class of local-intent pattern 9:
`[a-zàâçéèêëîïôùûüÿñæœ\-\s]`. -/
def p9Class (c : Char) : Bool :=
  ('a' ≤ c ∧ c ≤ 'z') ∨ c ∈ lstr "àâçéèêëîïôùûüÿñæœ" ∨ c = '-' ∨ isSpaceChar c

/-- `LOCAL_INTENT_RE`: the alternation of `LOCAL_INTENT_PATTERNS` in
source order (`re.IGNORECASE` is immaterial because every call site
lowercases its input first, and the patterns are lowercase). -/
def LOCAL_INTENT_RE (n : Nat) : RE :=
  reAltL
    [ bword (lstr "near me"),
      bword (lstr "in my area"),
      reAltL [bword (lstr "open now"), bword (lstr "opening hours"),
        bword (lstr "openingstijden"), bword (lstr "horaires"),
        bword (lstr "öffnungszeiten")],
      reAltL [bword (lstr "menu"), bword (lstr "karte"), bword (lstr "carte")],
      reAltL [bword (lstr "delivery"), bword (lstr "takeaway"),
        bword (lstr "deliveroo"), bword (lstr "ubereats"),
        bword (lstr "just eat"), bword (lstr "thuisbezorgd")],
      reAltL [bword (lstr "restaurant"), bword (lstr "restaurants"),
        bword (lstr "resto"), bword (lstr "bar"), bword (lstr "bistro")],
      reAltL
        [ RE.cat RE.wordB (RE.cat (reStr (lstr "review"))
            (RE.cat (reOpt (reStr (lstr "s"))) RE.wordB)),
          RE.cat RE.wordB (RE.cat (reStr (lstr "rezension"))
            (RE.cat (reOpt (reStr (lstr "en"))) RE.wordB)),
          bword (lstr "avis") ],
      RE.cat RE.wordB (RE.cat
        (reWords ((["best", "top", "good", "goede", "beste", "meilleur",
          "meilleurs", "besten"] : List String).map lstr))
        (RE.cat RE.wordB (RE.cat (reStar reDot n)
          (RE.cat RE.wordB (RE.cat
            (reWords ((["in", "near", "around", "bei", "à", "en"] : List String).map lstr))
            RE.wordB))))),
      RE.cat RE.wordB (RE.cat
        (reWords ((["in", "near", "around", "bei", "à", "en"] : List String).map lstr))
        (RE.cat (rePlus reSp n) (RE.cat (RE.rep (RE.chr p9Class) 2 n) RE.eos))) ]

/-- `RECIPE_RE`: `\b(recipe|recipes|recept|recepten|rezept|rezepte|recette|recettes)\b`. -/
def RECIPE_RE : RE :=
  RE.cat RE.wordB (RE.cat
    (reWords ((["recipe", "recipes", "recept", "recepten", "rezept",
      "rezepte", "recette", "recettes"] : List String).map lstr))
    RE.wordB)

/-- `extract_trends.normalize`. -/
def normalize (text : List Char) : List Char :=
  let t := pyStrip (pyLower text)
  let t := collapseWS t
  let t := t.filter fun c =>
    isWordChar c ∨ isSpaceChar c ∨ c = '-' ∨ c ∈ lstr "àâçéèêëîïôùûüÿñæœ"
  pyStrip (pyStripChars (lstr "- ") t)

/-- The pantry/form-factor tuple of `food_intent_score`. -/
def PANTRY : List (List Char) :=
  ([ "sauce", "paste", "powder", "mix", "broth", "marinade",
     "dressing", "dip" ] : List String).map lstr

/-- `extract_trends.food_intent_score`. -/
def food_intent_score (q : List Char) : ℤ :=
  let ql := pyLower q
  (if NONFOOD_VETO.any (fun v => containsSub ql v) then -3 else 0)
    + (if reTest ql (LOCAL_INTENT_RE ql.length) then -3 else 0)
    + (if reTest ql RECIPE_RE then 2 else 0)
    + (if FOOD_HINTS.any (fun h => containsSub ql h) then 2 else 0)
    + (if PANTRY.any (fun p => containsSub ql p) then 1 else 0)

/-- `extract_trends.is_foody`. -/
def is_foody (query : List Char) : Bool :=
  if query.length < 3 then false
  else
    let q := pyStrip (pyLower query)
    if reTest q (LOCAL_INTENT_RE q.length) then false
    else if NONFOOD_VETO.any (fun v => containsSub q v) then false
    else 2 ≤ food_intent_score q

end Extract

/-- Nonnegative digit-string value. -/
def digitsVal (ds : List Char) : ℕ := ds.foldl (fun a c => 10 * a + (c.toNat - 48)) 0

/-- Python `float(s)` on strings, for the plain decimal grammar
`[+-]? (digits | digits . digits? | . digits)` after stripping surrounding
whitespace (exponents, `inf`/`nan` and underscores are out of the
modelled scope; no dictionary or claim input uses them). -/
def strToFloat (s : List Char) : Option ℚ :=
  let t := pyStrip s
  let su : ℚ × List Char :=
    match t with
    | '-' :: r => (-1, r)
    | '+' :: r => (1, r)
    | r => (1, r)
  let ip := su.2.takeWhile isDigitChar
  let rest := su.2.dropWhile isDigitChar
  match rest with
  | [] => if ip = [] then none else some (su.1 * digitsVal ip)
  | '.' :: fr =>
    if fr.all isDigitChar ∧ (ip ≠ [] ∨ fr ≠ []) then
      some (su.1 * ((digitsVal ip : ℚ) + (digitsVal fr : ℚ) / (10 ^ fr.length)))
    else none
  | _ => none

namespace Extract

/-- The dynamic value found under a record's `score` key, classified by
the two tests `cluster_queries` applies to it: `num q` is a value that is
not a string and that `float(·)` converts to `q` (ints, floats, bools);
`str s` is a string; `missing` is an absent key or `None` (for which
`float(·)` raises). -/
inductive ScoreVal where
  | num (q : ℚ)
  | str (s : List Char)
  | missing
deriving DecidableEq, Repr

/-- The numeric signal `cluster_queries` extracts from a `score` value:
the `"breakout"` sentinel (case-insensitively) maps to 150, other strings
go through `float(·)`, unparseable values are discarded. -/
def parseScoreVal : ScoreVal → Option ℚ
  | .num q => some q
  | .str s => if pyLower s = lstr "breakout" then some 150 else strToFloat s
  | .missing => none

/-- A raw signal record as consumed by `cluster_queries` (a JSON object;
absent optional keys are `none`, the `query` key defaults to the empty
string, and the entity fields are attached by `cluster_queries`
itself). -/
structure Row where
  query : List Char := []
  country : Option (List Char) := none
  seed : Option (List Char) := none
  score : ScoreVal := ScoreVal.missing
  fetched_at : Option (List Char) := none
  entity_name : Option (List Char) := none
  entity_type : Option (List Char) := none
  entity_confidence : Option ℚ := none
deriving DecidableEq, Repr

/-- `extract_trends.TrendCluster`. -/
structure TrendCluster where
  label : List Char
  queries : List Row
  countries : List (List Char)
  seeds : List (List Char)
  score : ℚ
deriving DecidableEq, Repr

/-- Append a record under a key in the insertion-ordered aggregation map
(`agg` is a `defaultdict(list)`). -/
def aggAdd (agg : List (List Char × List Row)) (key : List Char) (r : Row) :
    List (List Char × List Row) :=
  if (agg.find? (fun kv => kv.1 = key)).isSome then
    agg.map (fun kv => if kv.1 = key then (kv.1, kv.2 ++ [r]) else kv)
  else agg ++ [(key, [r])]

/-- `agg[key]` (defaultdict lookup). -/
def aggGet (agg : List (List Char × List Row)) (key : List Char) : List Row :=
  match agg.find? (fun kv => kv.1 = key) with
  | some kv => kv.2
  | none => []

/-- Python `max(entities, key=confidence)`: first maximum wins. -/
def bestEntity (e : EntityExtractor.Entity) (es : List EntityExtractor.Entity) :
    EntityExtractor.Entity :=
  es.foldl (fun b x => if b.confidence < x.confidence then x else b) e

/-- The per-record aggregation phase of `cluster_queries` (normalise,
drop generic queries, aggregate by best entity or by the soft-stopword
stripped foody fallback key).  `stopOrder` is the iteration order of the
`SOFT_STOPWORDS` set, which Python does not fix across processes. -/
def phase1 (stopOrder : List (List Char)) (rows : List Row) :
    List (List Char × List Row) :=
  rows.foldl
    (fun agg r =>
      let q := normalize r.query
      if q = [] then agg
      else if EntityExtractor.should_skip_generic q then agg
      else
        match EntityExtractor.extract_entities q with
        | [] =>
          let q1 := stopOrder.foldl (fun s w => pyReplace s ([' '] ++ w ++ [' ']) [' ']) q
          let q2 := normalize q1
          if q2 = [] then agg
          else if ¬ is_foody q2 then agg
          else aggAdd agg q2 r
        | e :: es =>
          let best := bestEntity e es
          let ename := normalize best.name
          let r1 := { r with
            entity_name := some best.name,
            entity_type := some best.type,
            entity_confidence := some best.confidence }
          aggAdd agg ename r1)
    []

/-- `rapidfuzz.process.extract(q, labels, limit=1)`: the best-scoring
label, the first one winning ties (`labels` non-empty). -/
def bestSim (sim : List Char → List Char → ℚ) (q l : List Char)
    (ls : List (List Char)) : List Char × ℚ :=
  ls.foldl (fun b x => if b.2 < sim q x then (x, sim q x) else b) (l, sim q l)

/-- The greedy single-pass fuzzy merge of `cluster_queries` over the
aggregation keys in encounter order: clusters are `(label, member keys)`
pairs; a new key joins the best-matching existing label when the score
reaches the threshold, else starts its own cluster. -/
def phase2 (sim : List Char → List Char → ℚ) (threshold : ℚ)
    (keys : List (List Char)) : List (List Char × List (List Char)) :=
  keys.foldl
    (fun clusters q =>
      match clusters with
      | [] => [(q, [q])]
      | c :: cs =>
        let best := bestSim sim q c.1 (cs.map Prod.fst)
        if threshold ≤ best.2 then
          (c :: cs).map (fun lm => if lm.1 = best.1 then (lm.1, lm.2 ++ [q]) else lm)
        else (c :: cs) ++ [(q, [q])])
    []

/-- The per-cluster aggregation phase of `cluster_queries`: member rows in
order, the sets of raw `country`/`seed` values (a missing value is one
distinct set element, exactly as Python's `set.add(None)`), the parsed
numeric scores, and the final cluster score
`mean * (1 + 0.25*max(0,|seeds|-1)) * (1 + 0.5*max(0,|countries|-1))`.
The exported `countries`/`seeds` lists keep only truthy values (present
and non-empty), sorted. -/
def phase3 (agg : List (List Char × List Row))
    (clusters : List (List Char × List (List Char))) : List TrendCluster :=
  clusters.map fun lm =>
    let all_rows := lm.2.flatMap (fun m => aggGet agg m)
    let countries := (all_rows.map (·.country)).dedup
    let seeds := (all_rows.map (·.seed)).dedup
    let scores := all_rows.filterMap (fun r => parseScoreVal r.score)
    let base : ℚ := if scores = [] then 0 else scores.sum / (max 1 scores.length : ℕ)
    let breadth : ℚ :=
      (1 + (1 / 4) * ((max 0 ((seeds.length : ℤ) - 1) : ℤ) : ℚ))
        * (1 + (1 / 2) * ((max 0 ((countries.length : ℤ) - 1) : ℤ) : ℚ))
    { label := lm.1
      queries := all_rows
      countries := List.insertionSort (· ≤ ·)
        ((countries.filterMap id).filter (fun c => c ≠ []))
      seeds := List.insertionSort (· ≤ ·)
        ((seeds.filterMap id).filter (fun s => s ≠ []))
      score := base * breadth }

/-- Descending-score order on clusters (`out.sort(key=score, reverse=True)`). -/
def clusterGE (a b : TrendCluster) : Prop := b.score ≤ a.score

instance : DecidableRel clusterGE := fun a b => inferInstanceAs (Decidable (b.score ≤ a.score))

instance : IsTotal TrendCluster clusterGE := ⟨fun a b => le_total b.score a.score⟩

instance : IsTrans TrendCluster clusterGE := ⟨fun _ _ _ h1 h2 => le_trans h2 h1⟩

/-- `extract_trends.cluster_queries`.  `sim` is the external
`fuzz.token_set_ratio` scorer (rapidfuzz, a third-party collaborator),
`stopOrder` the process-dependent iteration order of `SOFT_STOPWORDS`. -/
def cluster_queries (sim : List Char → List Char → ℚ) (stopOrder : List (List Char))
    (rows : List Row) (threshold : ℚ) : List TrendCluster :=
  let agg := phase1 stopOrder rows
  let clusters := phase2 sim threshold (agg.map Prod.fst)
  List.insertionSort clusterGE (phase3 agg clusters)

/-- The label-to-member mapping of a cluster run (the observation the
idempotence claim is about). -/
def labelMemberMap (out : List TrendCluster) : List (List Char × List Row) :=
  out.map fun c => (c.label, c.queries)

end Extract

/-- The `lead_lag` export object of a trend (payload for the scorer; the
scorer never reads it). -/
structure LeadLag where
  has_lead : Bool := false
  has_target : Bool := false
  lead_first : Option (List Char) := none
  target_first : Option (List Char) := none
deriving DecidableEq, Repr

/-- The score-breakdown map: in the source a dict with exactly the five
component names as keys. -/
structure Breakdown where
  recency : ℚ
  breadth : ℚ
  velocity : ℚ
  specificity : ℚ
  diversity : ℚ
deriving DecidableEq, Repr

/-- One historical weekly snapshot row as read by the velocity component
(`history[i].get("raw_count", 0)`; only `raw_count` is consulted, with a
missing key behaving as 0). -/
structure HEntry where
  raw_count : ℤ := 0
deriving DecidableEq, Repr

/-- A trend dict as consumed by `TrendScorer` (the export payload of
`extract_trends.export_clusters`).  `first_seen` carries per-country
timestamps with ISO parsing abstracted to `Option ℤ` epoch seconds
(`none` = the string does not parse); `entity_confidence` models
`trend.get("entity_confidence", 0.0)`; `extra` models any further
key/value pairs of the dict, which no scorer touches. -/
structure Trend where
  trend : List Char := []
  countries : List (List Char) := []
  country_order : List (List Char) := []
  first_seen : List (List Char × Option ℤ) := []
  lead_lag : LeadLag := {}
  seed_count : ℤ := 0
  seeds : List (List Char) := []
  examples : List (List Char) := []
  raw_count : ℤ := 0
  entity_type : Option (List Char) := none
  entity_confidence : ℚ := 0
  score : Option ℚ := none
  score_breakdown : Option Breakdown := none
  extra : List (List Char × List Char) := []
deriving DecidableEq, Repr

/-- `components/recency.score_recency` (with the wall clock `now`, in
epoch seconds, passed explicitly; `timedelta.days` floors, hence
`Int.fdiv`). -/
def score_recency (trend : Trend) (now : ℤ) : ℚ :=
  if trend.first_seen = [] then 0
  else
    match trend.first_seen.filterMap Prod.snd with
    | [] => 0
    | h :: rest =>
      let earliest := rest.foldl min h
      let age_days := (now - earliest).fdiv 86400
      if age_days ≤ 7 then 5
      else if age_days ≤ 14 then 4
      else if age_days ≤ 30 then 3
      else if age_days ≤ 60 then 2
      else if age_days ≤ 90 then 1
      else 1 / 2

namespace Breadth

/-- `components/breadth.LEAD_MARKETS` — note this set contains `CN`,
unlike `extract_trends.LEAD_MARKETS`. -/
def LEAD_MARKETS : List (List Char) :=
  ([ "US", "GB", "KR", "JP", "CN" ] : List String).map lstr

/-- `components/breadth.TARGET_MARKETS`. -/
def TARGET_MARKETS : List (List Char) := ([ "NL", "DE", "FR" ] : List String).map lstr

end Breadth

/-- `components/breadth.score_breadth` (`set(countries)` is modelled by
`dedup`). -/
def score_breadth (trend : Trend) : ℚ :=
  let countries := trend.countries.dedup
  if countries = [] then 0
  else
    let market_count := countries.length
    let s1 : ℚ :=
      if 5 ≤ market_count then 2
      else if 3 ≤ market_count then 3 / 2
      else if 2 ≤ market_count then 1
      else 1 / 2
    let lead_count := (countries.filter (fun c => Breadth.LEAD_MARKETS.contains c)).length
    let s2 : ℚ :=
      if 3 ≤ lead_count then 2
      else if 2 ≤ lead_count then 3 / 2
      else if 1 ≤ lead_count then 1
      else 0
    let target_count := (countries.filter (fun c => Breadth.TARGET_MARKETS.contains c)).length
    let s3 : ℚ :=
      if 2 ≤ target_count then 1
      else if 1 ≤ target_count then 1 / 2
      else 0
    min 5 (s1 + s2 + s3)

/-- `components/velocity.score_velocity`. -/
def score_velocity (trend : Trend) (history : List HEntry) : ℚ :=
  match history.reverse with
  | current_week :: previous_week :: _ =>
    let current_count := current_week.raw_count
    let previous_count := previous_week.raw_count
    if previous_count = 0 then (if 0 < current_count then 4 else 0)
    else
      let growth_rate : ℚ :=
        ((current_count - previous_count : ℤ) : ℚ) / ((previous_count : ℤ) : ℚ)
      if 1 / 2 < growth_rate then 5
      else if 3 / 10 < growth_rate then 4
      else if 1 / 10 < growth_rate then 3
      else if 0 < growth_rate then 2
      else if -(1 / 10) < growth_rate then 1
      else 1 / 2
  | _ => 5 / 2

/-- The generic-term penalty set of `score_specificity`. -/
def SPEC_GENERIC_TERMS : List (List Char) :=
  ([ "recipe", "recipes", "food", "cooking", "dinner", "lunch" ] : List String).map lstr

/-- The capitalised-word pattern `\b[A-Z][a-z]+\b` of `score_specificity`. -/
def capWordRE (n : Nat) : RE :=
  RE.cat RE.wordB (RE.cat EntityExtractor.reAZupper
    (RE.cat (rePlus EntityExtractor.reAZlower n) RE.wordB))

/-- The heuristic fallback branch of `score_specificity`. -/
def specificityFallback (trend : Trend) : ℚ :=
  let trend_name := pyLower trend.trend
  let words := splitWS trend_name
  let base1 : ℚ :=
    if 3 ≤ words.length then 3
    else if words.length = 2 then 5 / 2
    else 1
  let base2 := if reTest trend.trend (capWordRE trend.trend.length) then base1 + 1 else base1
  let base3 :=
    if SPEC_GENERIC_TERMS.any (fun t => containsSub trend_name t) then base2 - 1 else base2
  max 0 (min 5 base3)

/-- `components/specificity.score_specificity` (the Python truthiness test
`if entity_type:` sends both a missing and an empty-string type to the
heuristic fallback, as does an unrecognised type string). -/
def score_specificity (trend : Trend) : ℚ :=
  match trend.entity_type with
  | some et =>
    if et = [] then specificityFallback trend
    else if et = lstr "branded_product" then min 5 (4 + trend.entity_confidence)
    else if et = lstr "equipment" then 5
    else if et = lstr "ingredient_variety" then min 5 (7 / 2 + trend.entity_confidence)
    else if et = lstr "product_format" then min 5 (3 + trend.entity_confidence)
    else specificityFallback trend
  | none => specificityFallback trend

/-- The source-type buckets of the diversity component. -/
inductive SeedBucket where
  | search | menu | blog | social | retail | other
deriving DecidableEq, Repr

/-- The `elif` chain classifying one seed string into a bucket. -/
def classifySeed (seed : List Char) : SeedBucket :=
  let sl := pyLower seed
  if containsSub sl (lstr "google_trends") ∨ containsSub sl (lstr "trend") then .search
  else if containsSub sl (lstr "menu") ∨ containsSub sl (lstr "resy")
      ∨ containsSub sl (lstr "thefork") then .menu
  else if containsSub sl (lstr "blog") ∨ containsSub sl (lstr "food_blog") then .blog
  else if containsSub sl (lstr "reddit") ∨ containsSub sl (lstr "social") then .social
  else if containsSub sl (lstr "competitor") ∨ containsSub sl (lstr "retail") then .retail
  else .other

/-- `components/diversity.score_diversity`. -/
def score_diversity (trend : Trend) : ℚ :=
  if trend.seeds = [] then 0
  else
    let diversity_count := ((trend.seeds.map classifySeed).dedup).length
    if 4 ≤ diversity_count then 5
    else if diversity_count = 3 then 4
    else if diversity_count = 2 then 3
    else if diversity_count = 1 then (if 3 ≤ trend.seeds.length then 2 else 1)
    else 0

/-- Round half to even to the nearest integer (the tie-breaking Python's
`round` uses; floats are modelled as exact rationals). -/
def rhe (x : ℚ) : ℤ :=
  let f := ⌊x⌋
  let r := x - f
  if r < 1 / 2 then f
  else if 1 / 2 < r then f + 1
  else if f % 2 = 0 then f
  else f + 1

/-- Python `round(x, 2)` on the exact-rational model. -/
def round2 (x : ℚ) : ℚ := ((rhe (100 * x) : ℤ) : ℚ) / 100

namespace TrendScorer

/-- `TrendScorer.score`: the five components, their 2-decimal rounding,
and the rounded total (the wall clock `now` is passed explicitly). -/
def score (trend : Trend) (history : List HEntry) (now : ℤ) : ℚ × Breakdown :=
  let breakdown : Breakdown :=
    { recency := score_recency trend now
      breadth := score_breadth trend
      velocity := score_velocity trend history
      specificity := score_specificity trend
      diversity := score_diversity trend }
  let total := breakdown.recency + breakdown.breadth + breakdown.velocity
    + breakdown.specificity + breakdown.diversity
  (round2 total,
    { recency := round2 breakdown.recency
      breadth := round2 breakdown.breadth
      velocity := round2 breakdown.velocity
      specificity := round2 breakdown.specificity
      diversity := round2 breakdown.diversity })

/-- `history_map.get(trend.get("trend", ""), [])`. -/
def histLookup (history_map : List (List Char × List HEntry)) (name : List Char) :
    List HEntry :=
  match history_map.find? (fun kv => kv.1 = name) with
  | some kv => kv.2
  | none => []

/-- The per-trend body of `score_batch`: compute the score and set the
`score` and `score_breakdown` keys, leaving every other key unchanged. -/
def updateScore (history_map : List (List Char × List HEntry)) (now : ℤ)
    (trend : Trend) : Trend :=
  let history := histLookup history_map trend.trend
  let sb := score trend history now
  { trend with score := some sb.1, score_breakdown := some sb.2 }

/-- Descending order by the freshly assigned score
(`scored_trends.sort(key=lambda t: t["score"], reverse=True)`). -/
def trendGE (a b : Trend) : Prop := b.score.getD 0 ≤ a.score.getD 0

instance : DecidableRel trendGE :=
  fun a b => inferInstanceAs (Decidable (b.score.getD 0 ≤ a.score.getD 0))

instance : IsTotal Trend trendGE := ⟨fun a b => le_total (b.score.getD 0) (a.score.getD 0)⟩

instance : IsTrans Trend trendGE := ⟨fun _ _ _ h1 h2 => le_trans h2 h1⟩

/-- `TrendScorer.score_batch`. -/
def score_batch (trends : List Trend) (history_map : List (List Char × List HEntry))
    (now : ℤ) : List Trend :=
  List.insertionSort trendGE (trends.map (updateScore history_map now))

end TrendScorer

/-- One persisted line of a weekly snapshot file
(`jsonl_store.HistoryStore.snapshot`'s `snapshot_entry`). -/
structure SnapRow where
  week : List Char
  trend : List Char
  score : ℚ
  score_breakdown : Option Breakdown
  countries : List (List Char)
  raw_count : ℤ
  entity_type : Option (List Char)
deriving DecidableEq, Repr

/-- Build one snapshot row from a scored trend (the `.get` defaults of the
source: score 0, empty breakdown, empty countries, raw_count 0). -/
def mkSnapRow (week : List Char) (t : Trend) : SnapRow :=
  { week := week
    trend := t.trend
    score := t.score.getD 0
    score_breakdown := t.score_breakdown
    countries := t.countries
    raw_count := t.raw_count
    entity_type := t.entity_type }

/-- The history directory as explicit state: one entry per existing
`trends_{week}.jsonl` file (the file name embeds the week id injectively,
so the week id is the key). -/
abbrev FS := List (List Char × List SnapRow)

/-- Content of the file for a week, when it exists. -/
def fsRead (fs : FS) (week : List Char) : Option (List SnapRow) :=
  match fs.find? (fun kv => kv.1 = week) with
  | some kv => some kv.2
  | none => none

/-- `open(path, "w")` + write: create the file or truncate and replace an
existing one. -/
def fsWrite (fs : FS) (week : List Char) (rows : List SnapRow) : FS :=
  if (fs.find? (fun kv => kv.1 = week)).isSome then
    fs.map (fun kv => if kv.1 = week then (kv.1, rows) else kv)
  else fs ++ [(week, rows)]

namespace HistoryStore

/-- `jsonl_store.HistoryStore.snapshot` with an explicit week id (the
`week=None` branch derives the id from the wall clock) and the current
`trends.json` content passed explicitly (`none` = the file is missing, in
which case nothing is written). -/
def snapshot (week : List Char) (trendsFile : Option (List Trend)) (fs : FS) : FS :=
  match trendsFile with
  | none => fs
  | some trends => fsWrite fs week (trends.map (mkSnapRow week))

end HistoryStore

/-- A rational that is an integer multiple of one half (the grid all
score-ladder constants live on). -/
def IsHalf (q : ℚ) : Prop := (2 * q).den = 1

instance (q : ℚ) : Decidable (IsHalf q) := inferInstanceAs (Decidable ((2 * q).den = 1))

/-- The three breadth sub-score ladders over a country set, summed and
capped at 5, with the lead-market set a parameter. -/
def breadthLadders (countries : List (List Char)) (lead : List (List Char)) : ℚ :=
  let market_count := countries.length
  let s1 : ℚ :=
    if 5 ≤ market_count then 2
    else if 3 ≤ market_count then 3 / 2
    else if 2 ≤ market_count then 1
    else 1 / 2
  let lead_count := (countries.filter (fun c => lead.contains c)).length
  let s2 : ℚ :=
    if 3 ≤ lead_count then 2
    else if 2 ≤ lead_count then 3 / 2
    else if 1 ≤ lead_count then 1
    else 0
  let target_count := (countries.filter (fun c => Breadth.TARGET_MARKETS.contains c)).length
  let s3 : ℚ :=
    if 2 ≤ target_count then 1
    else if 1 ≤ target_count then 1 / 2
    else 0
  min 5 (s1 + s2 + s3)

/-- Modelled from the spec's words for claim C4: the breadth score as the
capped sum of the three ladders with the lead-market set US/GB/KR/JP (the
set the spec and glossary name), with no special case for an empty
country set. -/
def C4_claim_breadth (trend : Trend) : ℚ :=
  breadthLadders trend.countries.dedup Extract.LEAD_MARKETS

/-- Modelled from the spec's words for claim C6: length veto, then the
local-intent and non-food hard vetoes and the intent-score threshold, all
evaluated on the query as given (lowercased, matching the
case-insensitive regexes) — without stripping surrounding whitespace. -/
def C6_claim_is_foody (query : List Char) : Bool :=
  if query.length < 3 then false
  else if reTest (pyLower query) (Extract.LOCAL_INTENT_RE (pyLower query).length) then false
  else if Extract.NONFOOD_VETO.any (fun v => containsSub (pyLower query) v) then false
  else 2 ≤ Extract.food_intent_score query

/-- Week id used in the C5 counterexample. -/
def c5w : List Char := lstr "2026_w08"

/-- A first trends.json content for the C5 counterexample. -/
def c5t1 : Trend := { trend := lstr "gochujang" }

/-- A second, different trends.json content for the C5 counterexample. -/
def c5t2 : Trend := { trend := lstr "matcha" }

/-- Trend used in the C1 counterexample: a dict carrying a negative
`entity_confidence` (the pipeline never produces one, but `score` accepts
any dict). -/
def c1CexTrend : Trend :=
  { entity_type := some (lstr "product_format"), entity_confidence := -4 }

/-- Trend used in the C1 witness. -/
def c1wTrend : Trend :=
  { trend := lstr "gochujang wings", countries := [lstr "US"],
    seeds := [lstr "trending_searches"] }

/-- Stand-in similarity scorer for concrete runs whose aggregation
produces a single key: `cluster_queries` never consults the scorer on
such runs (the first key starts the only cluster), so any function gives
the same output as the real rapidfuzz scorer. -/
def simZero : List Char → List Char → ℚ := fun _ _ => 0

/-- Modelled from the spec's words for claim C2: the aggregate-score
formula with `|seeds|` and `|countries|` read as the cluster's exported
seeds/countries aggregates (which exclude missing values). -/
def C2_claim_score (c : Extract.TrendCluster) : ℚ :=
  let scores := c.queries.filterMap (fun r => Extract.parseScoreVal r.score)
  (if scores = [] then 0 else scores.sum / (scores.length : ℚ))
    * ((1 + (1 / 4) * ((max 0 ((c.seeds.length : ℤ) - 1) : ℤ) : ℚ))
      * (1 + (1 / 2) * ((max 0 ((c.countries.length : ℤ) - 1) : ℤ) : ℚ)))

/-- C2 counterexample record with a country. -/
def c2r1 : Extract.Row :=
  { query := lstr "dubai chocolate", country := some (lstr "US"),
    score := Extract.ScoreVal.num 10 }

/-- C2 counterexample record without a country (and an otherwise equal
score). -/
def c2r2 : Extract.Row :=
  { query := lstr "dubai chocolate", score := Extract.ScoreVal.num 10 }

/-- C2 witness row. -/
def c2wRow : Extract.Row :=
  { query := lstr "dubai chocolate", country := some (lstr "US"),
    seed := some (lstr "s"), score := Extract.ScoreVal.num 10 }

/-- The cluster the C2 witness run produces. -/
def c2wCluster : Extract.TrendCluster :=
  { label := lstr "dubai chocolate"
    queries := [{ c2wRow with
      entity_name := some (lstr "dubai chocolate"),
      entity_type := some (lstr "branded_product"),
      entity_confidence := some 1 }]
    countries := [lstr "US"]
    seeds := [lstr "s"]
    score := 10 }

/-- C10 witness row with country and seed. -/
def c10Row : Extract.Row :=
  { query := lstr "pink sauce", country := some (lstr "US"),
    seed := some (lstr "x"), score := Extract.ScoreVal.num 2 }

/-- C10 witness row lacking country, seed and a parseable score. -/
def c10Row2 : Extract.Row := { query := lstr "pink sauce" }

/-- The entity metadata `cluster_queries` attaches on the C10 witness
rows. -/
def c10Ent (r : Extract.Row) : Extract.Row :=
  { r with
    entity_name := some (lstr "pink sauce"),
    entity_type := some (lstr "branded_product"),
    entity_confidence := some 1 }

/-- The cluster the C10 witness run produces. -/
def c10Cluster : Extract.TrendCluster :=
  { label := lstr "pink sauce"
    queries := [c10Ent c10Row, c10Ent c10Row2]
    countries := [lstr "US"]
    seeds := [lstr "x"]
    score := 15 / 4 }

/-- C7 counterexample record: its query reaches the fallback
(soft-stopword) path, and the words `wat` and `wat is` interact — which
of them is replaced first changes the aggregation key. -/
def c7Row : Extract.Row :=
  { query := lstr "a wat is ramen b", country := some (lstr "US"),
    seed := some (lstr "s"), score := Extract.ScoreVal.num 1 }

/-- A second legitimate iteration order of the `SOFT_STOPWORDS` set
(Python fixes no order for set iteration; string hashing is randomised
per process). -/
def stopOrderB : List (List Char) :=
  lstr "wat is" :: Extract.SOFT_STOPWORDS.erase (lstr "wat is")

theorem isHalf_intro (q : ℚ) (k : ℤ) (h : q = (k : ℚ) / 2) : IsHalf q := by
  subst h
  unfold IsHalf
  rw [show (2 : ℚ) * ((k : ℚ) / 2) = (k : ℚ) by ring]
  exact Rat.den_intCast k

theorem isHalf_elim (q : ℚ) (h : IsHalf q) : ∃ k : ℤ, q = (k : ℚ) / 2 := by
  refine ⟨(2 * q).num, ?_⟩
  have h2 : (((2 * q).num : ℤ) : ℚ) = 2 * q := (Rat.den_eq_one_iff _).mp h
  rw [eq_div_iff (by norm_num : (2 : ℚ) ≠ 0)]
  linarith

theorem isHalf_add (a b : ℚ) (ha : IsHalf a) (hb : IsHalf b) : IsHalf (a + b) := by
  obtain ⟨j, hj⟩ := isHalf_elim a ha
  obtain ⟨k, hk⟩ := isHalf_elim b hb
  refine isHalf_intro _ (j + k) ?_
  subst hj hk
  push_cast
  ring

theorem rhe_intCast (n : ℤ) : rhe (n : ℚ) = n := by
  unfold rhe
  rw [Int.floor_intCast]
  norm_num

theorem rhe_add_int_even (x : ℚ) (k : ℤ) (hk : k % 2 = 0) :
    rhe (x + (k : ℚ)) = rhe x + k := by
  unfold rhe
  dsimp only
  rw [Int.floor_add_int]
  have hr : x + (k : ℚ) - ((⌊x⌋ + k : ℤ) : ℚ) = x - (⌊x⌋ : ℚ) := by push_cast; ring
  rw [hr]
  have hpar : (⌊x⌋ + k) % 2 = ⌊x⌋ % 2 := by omega
  split_ifs with h1 h2 h3 h4 <;> omega

theorem rhe_nonneg (x : ℚ) (h : 0 ≤ x) : 0 ≤ rhe x := by
  unfold rhe
  dsimp only
  have hf : 0 ≤ ⌊x⌋ := Int.floor_nonneg.mpr h
  split_ifs <;> omega

theorem rhe_le (x : ℚ) (n : ℤ) (h : x ≤ (n : ℚ)) : rhe x ≤ n := by
  unfold rhe
  dsimp only
  have hf : ⌊x⌋ ≤ n := by
    have := Int.floor_le_floor h
    simpa using this
  by_cases hfe : ⌊x⌋ = n
  · have hx : x - (⌊x⌋ : ℚ) ≤ 0 := by
      rw [hfe]; linarith
    split_ifs <;> linarith [hx]
  · have : ⌊x⌋ + 1 ≤ n := by omega
    split_ifs <;> omega

theorem round2_isHalf (q : ℚ) (h : IsHalf q) : round2 q = q := by
  obtain ⟨k, hk⟩ := isHalf_elim q h
  subst hk
  unfold round2
  rw [show (100 : ℚ) * ((k : ℚ) / 2) = ((50 * k : ℤ) : ℚ) by push_cast; ring, rhe_intCast]
  push_cast
  ring

theorem round2_add_isHalf (x h : ℚ) (hh : IsHalf h) :
    round2 (x + h) = round2 x + h := by
  obtain ⟨k, hk⟩ := isHalf_elim h hh
  subst hk
  unfold round2
  rw [show (100 : ℚ) * (x + (k : ℚ) / 2) = 100 * x + ((50 * k : ℤ) : ℚ) by push_cast; ring]
  rw [rhe_add_int_even _ _ (by omega)]
  push_cast
  ring

theorem round2_bounds (x : ℚ) (h0 : 0 ≤ x) (h5 : x ≤ 5) :
    0 ≤ round2 x ∧ round2 x ≤ 5 := by
  unfold round2
  have hlo : 0 ≤ rhe (100 * x) := rhe_nonneg _ (by linarith)
  have hhi : rhe (100 * x) ≤ 500 := rhe_le _ 500 (by push_cast; linarith)
  constructor
  · positivity
  · rw [div_le_iff₀ (by norm_num : (0 : ℚ) < 100)]
    calc ((rhe (100 * x) : ℤ) : ℚ) ≤ ((500 : ℤ) : ℚ) := by exact_mod_cast hhi
    _ = 5 * 100 := by norm_num

unseal Rat.add Rat.mul Rat.inv Rat.sub in
theorem recency_props (t : Trend) (now : ℤ) :
    IsHalf (score_recency t now) ∧ 0 ≤ score_recency t now ∧ score_recency t now ≤ 5 := by
  unfold score_recency
  dsimp only
  repeat' split
  all_goals exact ⟨by decide, by decide, by decide⟩

unseal Rat.add Rat.mul Rat.inv Rat.sub in
theorem velocity_props (t : Trend) (history : List HEntry) :
    IsHalf (score_velocity t history) ∧ 0 ≤ score_velocity t history
      ∧ score_velocity t history ≤ 5 := by
  unfold score_velocity
  dsimp only
  repeat' split
  all_goals exact ⟨by decide, by decide, by decide⟩

unseal Rat.add Rat.mul Rat.inv Rat.sub in
theorem diversity_props (t : Trend) :
    IsHalf (score_diversity t) ∧ 0 ≤ score_diversity t ∧ score_diversity t ≤ 5 := by
  unfold score_diversity
  dsimp only
  repeat' split
  all_goals exact ⟨by decide, by decide, by decide⟩

unseal Rat.add Rat.mul Rat.inv Rat.sub in
theorem breadth_props (t : Trend) :
    IsHalf (score_breadth t) ∧ 0 ≤ score_breadth t ∧ score_breadth t ≤ 5 := by
  unfold score_breadth
  dsimp only
  repeat' split
  all_goals exact ⟨by decide, by decide, by decide⟩

theorem specificityFallback_bounds (t : Trend) :
    0 ≤ specificityFallback t ∧ specificityFallback t ≤ 5 := by
  unfold specificityFallback
  dsimp only
  exact ⟨le_max_left 0 _, max_le (by norm_num) (min_le_left _ _)⟩

theorem specificity_bounds (t : Trend) (hconf : 0 ≤ t.entity_confidence) :
    0 ≤ score_specificity t ∧ score_specificity t ≤ 5 := by
  have hfb := specificityFallback_bounds t
  unfold score_specificity
  split
  · split_ifs
    · exact hfb
    · exact ⟨le_min (by norm_num) (by linarith), min_le_left _ _⟩
    · exact ⟨by norm_num, by norm_num⟩
    · exact ⟨le_min (by norm_num) (by linarith), min_le_left _ _⟩
    · exact ⟨le_min (by norm_num) (by linarith), min_le_left _ _⟩
    · exact hfb
  · exact hfb

/-- C3: velocity is 2.5 with fewer than two snapshots; with at least two,
it compares the last two weeks' raw counts: previous 0 gives 4.0 or 0.0
by current count, else the growth-rate ladder applies. -/
theorem C3_velocity_spec (t : Trend) (x p c : HEntry) (pre : List HEntry) :
    score_velocity t [] = 5 / 2 ∧
    score_velocity t [x] = 5 / 2 ∧
    score_velocity t (pre ++ [p, c]) =
      (if p.raw_count = 0 then (if 0 < c.raw_count then 4 else 0)
       else
         let growth_rate : ℚ :=
           ((c.raw_count - p.raw_count : ℤ) : ℚ) / ((p.raw_count : ℤ) : ℚ)
         if 1 / 2 < growth_rate then 5
         else if 3 / 10 < growth_rate then 4
         else if 1 / 10 < growth_rate then 3
         else if 0 < growth_rate then 2
         else if -(1 / 10) < growth_rate then 1
         else 1 / 2) := by
  refine ⟨rfl, rfl, ?_⟩
  unfold score_velocity
  rw [List.reverse_append]
  rfl

unseal Rat.add Rat.mul Rat.inv Rat.sub in
/-- C4 counterexample: on `{CN}` the code scores 1.5 (CN is in the code's
lead-market set) while the claimed formula gives 0.5; on the empty
country set the code scores 0.0 while the claimed formula gives 0.5. -/
theorem C4_counterexample :
    score_breadth { countries := [lstr "CN"] } = 3 / 2 ∧
    C4_claim_breadth { countries := [lstr "CN"] } = 1 / 2 ∧
    score_breadth ({} : Trend) = 0 ∧
    C4_claim_breadth ({} : Trend) = 1 / 2 := by
  refine ⟨by decide, by decide, by decide, by decide⟩

/-- C4 amended: the breadth score is 0.0 for an empty country set and
otherwise the capped sum of the three ladders, with the lead-market set
US/GB/KR/JP/CN (the set the breadth component actually uses). -/
theorem C4_amended_breadth (t : Trend) :
    score_breadth t =
      if t.countries.dedup = [] then 0
      else breadthLadders t.countries.dedup Breadth.LEAD_MARKETS := by
  unfold score_breadth breadthLadders
  rfl

unseal Rat.add Rat.mul Rat.inv Rat.sub in
/-- C8: a query that exactly equals a curated viral/branded product name
yields an entity with that name, type `branded_product`, confidence 1.0. -/
theorem C8_viral_product_entity (q : List Char)
    (hq : q ∈ EntityExtractor.VIRAL_PRODUCTS) :
    ∃ e ∈ EntityExtractor.extract_entities q,
      e.name = q ∧ e.type = lstr "branded_product" ∧ e.confidence = 1 := by
  fin_cases hq <;> decide

/-- C8 witness at the concrete query `"dubai chocolate"`. -/
theorem C8_viral_product_entity_witness :
    ∃ e ∈ EntityExtractor.extract_entities (lstr "dubai chocolate"),
      e.name = lstr "dubai chocolate" ∧ e.type = lstr "branded_product"
        ∧ e.confidence = 1 :=
  C8_viral_product_entity (lstr "dubai chocolate") (by decide)

/-- C6 counterexample: on `"kimchi recipe in p "` (note the trailing
space) the code strips the query first, so the local-intent regex no
longer matches and `is_foody` is true; on the un-stripped query the
`$`-anchored local pattern matches, so the claimed reading hard-vetoes it
(and its raw intent score is 1 < 2). -/
theorem C6_counterexample :
    Extract.is_foody (lstr "kimchi recipe in p ") = true ∧
    C6_claim_is_foody (lstr "kimchi recipe in p ") = false ∧
    Extract.food_intent_score (lstr "kimchi recipe in p ") = 1 := by
  refine ⟨by decide, by decide, by decide⟩

/-- C6 amended: `is_foody` lowercases and whitespace-strips the query,
then applies the hard vetoes and the score threshold to the stripped
query; the length veto uses the original query.  In particular
`is_foody "best ramen near me"` is false. -/
theorem C6_amended_is_foody (query : List Char) :
    (Extract.is_foody query =
      (decide (3 ≤ query.length)
        && !(reTest (pyStrip (pyLower query))
              (Extract.LOCAL_INTENT_RE (pyStrip (pyLower query)).length))
        && !(Extract.NONFOOD_VETO.any
              (fun v => containsSub (pyStrip (pyLower query)) v))
        && decide (2 ≤ Extract.food_intent_score (pyStrip (pyLower query))))) ∧
    Extract.is_foody (lstr "best ramen near me") = false := by
  constructor
  · unfold Extract.is_foody
    dsimp only
    by_cases h1 : query.length < 3
    · have h1' : ¬ 3 ≤ query.length := by omega
      simp [h1, h1']
    · have h1' : 3 ≤ query.length := by omega
      rw [if_neg h1]
      split_ifs with h2 h3 <;> simp_all [h1']
  · decide

theorem find?_map_week_self (t : FS) (w : List Char) (rows : List SnapRow)
    (hs : (t.find? (fun kv => kv.1 = w)).isSome = true) :
    (t.map (fun kv => if kv.1 = w then (kv.1, rows) else kv)).find?
        (fun kv => kv.1 = w) = some (w, rows) := by
  induction t with
  | nil => simp at hs
  | cons kv t ih =>
    by_cases hk : kv.1 = w
    · subst hk
      simp [List.find?]
    · rw [List.find?_cons_of_neg _ (by simpa using hk)] at hs
      simpa [List.find?, hk] using ih hs

theorem find?_map_week_other (t : FS) (w w' : List Char) (rows : List SnapRow)
    (h : w' ≠ w) :
    (t.map (fun kv => if kv.1 = w then (kv.1, rows) else kv)).find?
        (fun kv => kv.1 = w') = t.find? (fun kv => kv.1 = w') := by
  have hww : ¬ w = w' := fun hh => h hh.symm
  induction t with
  | nil => rfl
  | cons kv t ih =>
    by_cases hk : kv.1 = w
    · have hk' : ¬ kv.1 = w' := by rw [hk]; exact fun hh => h hh.symm
      simp [List.find?, hk, hk', ih, hww]
    · by_cases hk2 : kv.1 = w'
      · simp [List.find?, hk, hk2, h]
      · simp [List.find?, hk, hk2, ih, h]

theorem fsRead_fsWrite_self (fs : FS) (w : List Char) (rows : List SnapRow) :
    fsRead (fsWrite fs w rows) w = some rows := by
  unfold fsRead fsWrite
  split_ifs with hs
  · rw [find?_map_week_self fs w rows hs]
  · rw [List.find?_append]
    cases hfind : fs.find? (fun kv => kv.1 = w) with
    | some kv => rw [hfind] at hs; simp at hs
    | none => simp [List.find?]

theorem fsRead_fsWrite_other (fs : FS) (w w' : List Char) (rows : List SnapRow)
    (h : w' ≠ w) : fsRead (fsWrite fs w rows) w' = fsRead fs w' := by
  unfold fsRead fsWrite
  split_ifs with hs
  · rw [find?_map_week_other fs w w' rows h]
  · rw [List.find?_append]
    cases hfind : fs.find? (fun kv => kv.1 = w') with
    | some kv => simp [hfind]
    | none =>
      have hww : ¬ w = w' := fun hh => h hh.symm
      simp [hfind, List.find?, hww]

/-- C5 counterexample: a second `snapshot` call with the same week id
rewrites that week's file (mode `"w"` truncates), so the rows stored for
the week change — the store is not week-immutable under same-week
re-snapshots. -/
theorem C5_counterexample :
    fsRead (HistoryStore.snapshot c5w (some [c5t2])
        (HistoryStore.snapshot c5w (some [c5t1]) [])) c5w
      ≠ fsRead (HistoryStore.snapshot c5w (some [c5t1]) []) c5w := by
  decide

/-- C5 amended: `snapshot(week)` persists exactly one row per
currently-scored trend under that week id, and never touches any other
week's stored rows (distinct week ids map to distinct files); but a later
`snapshot` call with the *same* week id replaces that week's rows. -/
theorem C5_amended_snapshot (week week' : List Char) (trends : List Trend)
    (tf : Option (List Trend)) (fs : FS) (hne : week' ≠ week) :
    fsRead (HistoryStore.snapshot week (some trends) fs) week
        = some (trends.map (mkSnapRow week)) ∧
    fsRead (HistoryStore.snapshot week tf fs) week' = fsRead fs week' := by
  constructor
  · exact fsRead_fsWrite_self fs week _
  · cases tf with
    | none => rfl
    | some ts => exact fsRead_fsWrite_other fs week week' _ hne

/-- C5 witness: the amended statement at a concrete week pair and store. -/
theorem C5_amended_snapshot_witness :
    fsRead (HistoryStore.snapshot c5w (some [c5t1]) []) c5w
        = some ([c5t1].map (mkSnapRow c5w)) ∧
    fsRead (HistoryStore.snapshot c5w none []) (lstr "2026_w09")
        = fsRead [] (lstr "2026_w09") :=
  C5_amended_snapshot c5w (lstr "2026_w09") [c5t1] none [] (by decide)

/-- C9: `score_batch` only sets the `score` and `score_breakdown` keys of
each trend (every other field is unchanged), and returns a permutation of
the updated trends sorted descending by the new score. -/
theorem C9_score_batch_frame (trends : List Trend)
    (history_map : List (List Char × List HEntry)) (now : ℤ) :
    (TrendScorer.score_batch trends history_map now).Perm
        (trends.map (TrendScorer.updateScore history_map now)) ∧
    List.Sorted TrendScorer.trendGE (TrendScorer.score_batch trends history_map now) ∧
    (∀ t : Trend,
      (TrendScorer.updateScore history_map now t).score
          = some (TrendScorer.score t
              (TrendScorer.histLookup history_map t.trend) now).1 ∧
      (TrendScorer.updateScore history_map now t).score_breakdown
          = some (TrendScorer.score t
              (TrendScorer.histLookup history_map t.trend) now).2 ∧
      (TrendScorer.updateScore history_map now t).trend = t.trend ∧
      (TrendScorer.updateScore history_map now t).countries = t.countries ∧
      (TrendScorer.updateScore history_map now t).country_order = t.country_order ∧
      (TrendScorer.updateScore history_map now t).first_seen = t.first_seen ∧
      (TrendScorer.updateScore history_map now t).lead_lag = t.lead_lag ∧
      (TrendScorer.updateScore history_map now t).seed_count = t.seed_count ∧
      (TrendScorer.updateScore history_map now t).seeds = t.seeds ∧
      (TrendScorer.updateScore history_map now t).examples = t.examples ∧
      (TrendScorer.updateScore history_map now t).raw_count = t.raw_count ∧
      (TrendScorer.updateScore history_map now t).entity_type = t.entity_type ∧
      (TrendScorer.updateScore history_map now t).entity_confidence = t.entity_confidence ∧
      (TrendScorer.updateScore history_map now t).extra = t.extra) := by
  refine ⟨List.perm_insertionSort _ _, List.sorted_insertionSort _ _, ?_⟩
  intro t
  exact ⟨rfl, rfl, rfl, rfl, rfl, rfl, rfl, rfl, rfl, rfl, rfl, rfl, rfl, rfl⟩

unseal Rat.add Rat.mul Rat.inv Rat.sub in
/-- C1 counterexample: on a trend dict with `entity_confidence = -4` the
specificity breakdown entry is −1.0, outside the claimed range [0, 5]. -/
theorem C1_counterexample :
    (TrendScorer.score c1CexTrend [] 0).2.specificity = -1 ∧
    ¬ 0 ≤ (TrendScorer.score c1CexTrend [] 0).2.specificity := by
  exact ⟨by decide, by decide⟩

/-- C1 amended: the total is always — for every trend dict and history
list, unconditionally — the exact sum of the five rounded breakdown
components; and provided the trend's `entity_confidence` is nonnegative
(pipeline confidences lie in [0, 1]), every rounded breakdown component
lies in [0, 5], hence the total lies in [0, 25]. -/
theorem C1_amended_score (trend : Trend) (history : List HEntry) (now : ℤ) :
    ((TrendScorer.score trend history now).1 =
      (TrendScorer.score trend history now).2.recency
        + (TrendScorer.score trend history now).2.breadth
        + (TrendScorer.score trend history now).2.velocity
        + (TrendScorer.score trend history now).2.specificity
        + (TrendScorer.score trend history now).2.diversity) ∧
    (0 ≤ trend.entity_confidence →
      (0 ≤ (TrendScorer.score trend history now).2.recency ∧
        (TrendScorer.score trend history now).2.recency ≤ 5) ∧
      (0 ≤ (TrendScorer.score trend history now).2.breadth ∧
        (TrendScorer.score trend history now).2.breadth ≤ 5) ∧
      (0 ≤ (TrendScorer.score trend history now).2.velocity ∧
        (TrendScorer.score trend history now).2.velocity ≤ 5) ∧
      (0 ≤ (TrendScorer.score trend history now).2.specificity ∧
        (TrendScorer.score trend history now).2.specificity ≤ 5) ∧
      (0 ≤ (TrendScorer.score trend history now).2.diversity ∧
        (TrendScorer.score trend history now).2.diversity ≤ 5) ∧
      0 ≤ (TrendScorer.score trend history now).1 ∧
      (TrendScorer.score trend history now).1 ≤ 25) := by
  obtain ⟨hRh, hR0, hR5⟩ := recency_props trend now
  obtain ⟨hBh, hB0, hB5⟩ := breadth_props trend
  obtain ⟨hVh, hV0, hV5⟩ := velocity_props trend history
  obtain ⟨hDh, hD0, hD5⟩ := diversity_props trend
  have hRr := round2_isHalf _ hRh
  have hBr := round2_isHalf _ hBh
  have hVr := round2_isHalf _ hVh
  have hDr := round2_isHalf _ hDh
  have hhalf4 : IsHalf (score_recency trend now + score_breadth trend
      + score_velocity trend history + score_diversity trend) :=
    isHalf_add _ _ (isHalf_add _ _ (isHalf_add _ _ hRh hBh) hVh) hDh
  have hsum : round2 (score_recency trend now + score_breadth trend
        + score_velocity trend history + score_specificity trend
        + score_diversity trend)
      = round2 (score_specificity trend)
        + (score_recency trend now + score_breadth trend
          + score_velocity trend history + score_diversity trend) := by
    rw [show score_recency trend now + score_breadth trend
        + score_velocity trend history + score_specificity trend
        + score_diversity trend
      = score_specificity trend + (score_recency trend now + score_breadth trend
          + score_velocity trend history + score_diversity trend) by ring]
    exact round2_add_isHalf _ _ hhalf4
  simp only [TrendScorer.score]
  constructor
  · rw [hsum, hRr, hBr, hVr, hDr]; ring
  · intro hconf
    obtain ⟨hS0, hS5⟩ := specificity_bounds trend hconf
    obtain ⟨hSr0, hSr5⟩ := round2_bounds _ hS0 hS5
    refine ⟨⟨?_, ?_⟩, ⟨?_, ?_⟩, ⟨?_, ?_⟩, ⟨?_, ?_⟩, ⟨?_, ?_⟩, ?_, ?_⟩
    · rw [hRr]; exact hR0
    · rw [hRr]; exact hR5
    · rw [hBr]; exact hB0
    · rw [hBr]; exact hB5
    · rw [hVr]; exact hV0
    · rw [hVr]; exact hV5
    · exact hSr0
    · exact hSr5
    · rw [hDr]; exact hD0
    · rw [hDr]; exact hD5
    · rw [hsum]; linarith
    · rw [hsum]; linarith

/-- C1 witness: the amended statement at a concrete trend — the
unconditional sum identity, and the bounds with the nonnegative
confidence discharged by computation. -/
theorem C1_amended_score_witness :
    ((TrendScorer.score c1wTrend [] 0).1 =
      (TrendScorer.score c1wTrend [] 0).2.recency
        + (TrendScorer.score c1wTrend [] 0).2.breadth
        + (TrendScorer.score c1wTrend [] 0).2.velocity
        + (TrendScorer.score c1wTrend [] 0).2.specificity
        + (TrendScorer.score c1wTrend [] 0).2.diversity) ∧
    ((0 ≤ (TrendScorer.score c1wTrend [] 0).2.recency ∧
        (TrendScorer.score c1wTrend [] 0).2.recency ≤ 5) ∧
      (0 ≤ (TrendScorer.score c1wTrend [] 0).2.breadth ∧
        (TrendScorer.score c1wTrend [] 0).2.breadth ≤ 5) ∧
      (0 ≤ (TrendScorer.score c1wTrend [] 0).2.velocity ∧
        (TrendScorer.score c1wTrend [] 0).2.velocity ≤ 5) ∧
      (0 ≤ (TrendScorer.score c1wTrend [] 0).2.specificity ∧
        (TrendScorer.score c1wTrend [] 0).2.specificity ≤ 5) ∧
      (0 ≤ (TrendScorer.score c1wTrend [] 0).2.diversity ∧
        (TrendScorer.score c1wTrend [] 0).2.diversity ≤ 5) ∧
      0 ≤ (TrendScorer.score c1wTrend [] 0).1 ∧
      (TrendScorer.score c1wTrend [] 0).1 ≤ 25) :=
  ⟨(C1_amended_score c1wTrend [] 0).1,
    (C1_amended_score c1wTrend [] 0).2 (by decide)⟩

/-- Membership in a cluster run comes from the `phase3` aggregation (the
final sort is a permutation). -/
theorem mem_cluster_queries_phase3 (sim : List Char → List Char → ℚ)
    (stopOrder : List (List Char)) (rows : List Extract.Row) (threshold : ℚ)
    (c : Extract.TrendCluster)
    (hc : c ∈ Extract.cluster_queries sim stopOrder rows threshold) :
    c ∈ Extract.phase3 (Extract.phase1 stopOrder rows)
        (Extract.phase2 sim threshold ((Extract.phase1 stopOrder rows).map Prod.fst)) := by
  unfold Extract.cluster_queries at hc
  exact (List.perm_insertionSort _ _).mem_iff.mp hc

/-- C2 amended: every produced cluster's score is the mean of the parsed
member scores (`"breakout"` ↦ 150, unparseable discarded, 0 when none
parse) times
`(1 + 0.25·max(0,|seeds|−1)) · (1 + 0.5·max(0,|countries|−1))`, where
`|seeds|` and `|countries|` count the *distinct raw* seed/country values
of the member records — a missing (None) value counts as one distinct
value, while the exported `countries`/`seeds` lists exclude it.  A record
with an unparseable score still contributes its country and seed to these
counts. -/
theorem C2_amended_cluster_score (sim : List Char → List Char → ℚ)
    (stopOrder : List (List Char)) (rows : List Extract.Row) (threshold : ℚ)
    (c : Extract.TrendCluster)
    (hc : c ∈ Extract.cluster_queries sim stopOrder rows threshold) :
    c.score =
      (if c.queries.filterMap (fun r => Extract.parseScoreVal r.score) = [] then 0
       else (c.queries.filterMap (fun r => Extract.parseScoreVal r.score)).sum
         / (((c.queries.filterMap (fun r => Extract.parseScoreVal r.score)).length : ℕ) : ℚ))
      * ((1 + (1 / 4) * ((max 0 (((c.queries.map (fun r => r.seed)).dedup.length : ℤ) - 1) : ℤ) : ℚ))
        * (1 + (1 / 2) * ((max 0 (((c.queries.map (fun r => r.country)).dedup.length : ℤ) - 1) : ℤ) : ℚ))) := by
  have hc3 := mem_cluster_queries_phase3 sim stopOrder rows threshold c hc
  unfold Extract.phase3 at hc3
  rw [List.mem_map] at hc3
  obtain ⟨lm, _, rfl⟩ := hc3
  dsimp only
  congr 1
  split_ifs with h
  · rfl
  · congr 1
    have hpos : 0 < (List.filterMap (fun r => Extract.parseScoreVal r.score)
        (lm.2.flatMap fun m => Extract.aggGet (Extract.phase1 stopOrder rows) m)).length := by
      cases hh : List.filterMap (fun r => Extract.parseScoreVal r.score)
          (lm.2.flatMap fun m => Extract.aggGet (Extract.phase1 stopOrder rows) m) with
      | nil => exact absurd hh h
      | cons a t => simp [hh]
    have : max 1 (List.filterMap (fun r => Extract.parseScoreVal r.score)
        (lm.2.flatMap fun m => Extract.aggGet (Extract.phase1 stopOrder rows) m)).length
        = (List.filterMap (fun r => Extract.parseScoreVal r.score)
          (lm.2.flatMap fun m => Extract.aggGet (Extract.phase1 stopOrder rows) m)).length := by
      omega
    rw [this]

unseal Rat.add Rat.mul Rat.inv Rat.sub in
/-- C2 counterexample: two records with equal scores, one lacking a
country, cluster together; the code counts the missing country as a
distinct set element, giving score 10 · 1.5 = 15, while the claimed
formula over the exported aggregates (`countries = ["US"]`, `seeds = []`)
gives 10. -/
theorem C2_counterexample :
    (Extract.cluster_queries simZero Extract.SOFT_STOPWORDS [c2r1, c2r2] 88).map
        Extract.TrendCluster.score = [15] ∧
    (Extract.cluster_queries simZero Extract.SOFT_STOPWORDS [c2r1, c2r2] 88).map
        C2_claim_score = [10] ∧
    (15 : ℚ) ≠ 10 := by
  exact ⟨by decide, by decide, by decide⟩

unseal Rat.add Rat.mul Rat.inv Rat.sub in
/-- C2 witness: the amended score equation at a concrete single-record
run. -/
theorem C2_amended_cluster_score_witness :
    c2wCluster.score =
      (if c2wCluster.queries.filterMap (fun r => Extract.parseScoreVal r.score) = [] then 0
       else (c2wCluster.queries.filterMap (fun r => Extract.parseScoreVal r.score)).sum
         / (((c2wCluster.queries.filterMap (fun r => Extract.parseScoreVal r.score)).length : ℕ) : ℚ))
      * ((1 + (1 / 4) * ((max 0 (((c2wCluster.queries.map (fun r => r.seed)).dedup.length : ℤ) - 1) : ℤ) : ℚ))
        * (1 + (1 / 2) * ((max 0 (((c2wCluster.queries.map (fun r => r.country)).dedup.length : ℤ) - 1) : ℤ) : ℚ))) :=
  C2_amended_cluster_score simZero Extract.SOFT_STOPWORDS [c2wRow] 88 c2wCluster
    (by decide)

/-- The exported per-cluster lists: sorted strictly ascending, and every
element is a present (`some`) value of the underlying raw list. -/
theorem sortedFilteredProps (l : List (Option (List Char))) :
    List.Sorted (· < ·)
      (List.insertionSort (· ≤ ·) ((l.dedup.filterMap id).filter (fun s => s ≠ []))) ∧
    ∀ x ∈ List.insertionSort (· ≤ ·) ((l.dedup.filterMap id).filter (fun s => s ≠ [])),
      some x ∈ l := by
  have hinj : ∀ (a a' : Option (List Char)) (b : List Char),
      b ∈ id a → b ∈ id a' → a = a' := by
    intro a a' b hb hb'
    simp only [id] at hb hb'
    rw [Option.mem_def] at hb hb'
    rw [hb, hb']
  have hnd : ((l.dedup.filterMap id).filter (fun s => s ≠ [])).Nodup :=
    (List.Nodup.filterMap hinj (List.nodup_dedup l)).filter _
  have hperm := List.perm_insertionSort (· ≤ ·)
    ((l.dedup.filterMap id).filter (fun s => s ≠ []))
  constructor
  · exact (List.sorted_insertionSort (· ≤ ·) _).lt_of_le (hperm.nodup_iff.mpr hnd)
  · intro x hx
    have hx2 := hperm.mem_iff.mp hx
    have hx3 := (List.mem_filter.mp hx2).1
    rw [List.mem_filterMap] at hx3
    obtain ⟨o, ho, hox⟩ := hx3
    simp only [id] at hox
    subst hox
    exact List.mem_dedup.mp ho

/-- C10: each produced cluster's `countries` and `seeds` lists are
strictly ascending (sorted, duplicate-free) and contain only values
actually present on member records — missing (None) values are filtered
out, even when some member records lack a country or seed. -/
theorem C10_cluster_lists (sim : List Char → List Char → ℚ)
    (stopOrder : List (List Char)) (rows : List Extract.Row) (threshold : ℚ)
    (c : Extract.TrendCluster)
    (hc : c ∈ Extract.cluster_queries sim stopOrder rows threshold) :
    List.Sorted (· < ·) c.countries ∧ List.Sorted (· < ·) c.seeds ∧
    (∀ x ∈ c.countries, ∃ r ∈ c.queries, r.country = some x) ∧
    (∀ x ∈ c.seeds, ∃ r ∈ c.queries, r.seed = some x) := by
  have hc3 := mem_cluster_queries_phase3 sim stopOrder rows threshold c hc
  unfold Extract.phase3 at hc3
  rw [List.mem_map] at hc3
  obtain ⟨lm, _, rfl⟩ := hc3
  dsimp only
  obtain ⟨hcs, hcm⟩ := sortedFilteredProps
    ((lm.2.flatMap fun m => Extract.aggGet (Extract.phase1 stopOrder rows) m).map
      (fun r => r.country))
  obtain ⟨hss, hsm⟩ := sortedFilteredProps
    ((lm.2.flatMap fun m => Extract.aggGet (Extract.phase1 stopOrder rows) m).map
      (fun r => r.seed))
  refine ⟨hcs, hss, ?_, ?_⟩
  · intro x hx
    have := hcm x hx
    rw [List.mem_map] at this
    obtain ⟨r, hr, hrx⟩ := this
    exact ⟨r, hr, hrx⟩
  · intro x hx
    have := hsm x hx
    rw [List.mem_map] at this
    obtain ⟨r, hr, hrx⟩ := this
    exact ⟨r, hr, hrx⟩

unseal Rat.add Rat.mul Rat.inv Rat.sub in
/-- C10 witness: the sortedness/provenance invariants at a concrete run
in which one member record lacks both country and seed. -/
theorem C10_cluster_lists_witness :
    List.Sorted (· < ·) c10Cluster.countries ∧
    List.Sorted (· < ·) c10Cluster.seeds ∧
    (∀ x ∈ c10Cluster.countries, ∃ r ∈ c10Cluster.queries, r.country = some x) ∧
    (∀ x ∈ c10Cluster.seeds, ∃ r ∈ c10Cluster.queries, r.seed = some x) :=
  C10_cluster_lists simZero Extract.SOFT_STOPWORDS [c10Row, c10Row2] 88 c10Cluster
    (by decide)

unseal Rat.add Rat.mul Rat.inv Rat.sub in
/-- C7 counterexample: the same records and threshold, under two
iteration orders of the `SOFT_STOPWORDS` set (both permutations of the
set), produce different cluster labels — so two runs of the program (in
different processes, where Python's randomised string hashing can reorder
the set) need not produce the same label-to-member-set mapping. -/
theorem C7_counterexample :
    stopOrderB.Perm Extract.SOFT_STOPWORDS ∧
    (Extract.cluster_queries simZero Extract.SOFT_STOPWORDS [c7Row] 88).map
        Extract.TrendCluster.label = [lstr "a is ramen b"] ∧
    (Extract.cluster_queries simZero stopOrderB [c7Row] 88).map
        Extract.TrendCluster.label = [lstr "a ramen b"] ∧
    Extract.labelMemberMap (Extract.cluster_queries simZero Extract.SOFT_STOPWORDS [c7Row] 88)
      ≠ Extract.labelMemberMap (Extract.cluster_queries simZero stopOrderB [c7Row] 88) := by
  refine ⟨?_, by decide, by decide, by decide⟩
  unfold stopOrderB
  exact (List.perm_cons_erase
    (by decide : lstr "wat is" ∈ Extract.SOFT_STOPWORDS)).symm

/-- C7 amended: for a fixed similarity scorer, a fixed iteration order of
the global stopword set (as within a single interpreter process), a fixed
record list and a fixed threshold, `cluster_queries` is deterministic:
two runs yield the identical label-to-member mapping.  (The embedding is
a pure function of these arguments, so the mapping is literally equal.) -/
theorem C7_amended_deterministic (sim : List Char → List Char → ℚ)
    (stopOrder : List (List Char)) (rows : List Extract.Row) (threshold : ℚ) :
    Extract.labelMemberMap (Extract.cluster_queries sim stopOrder rows threshold)
      = Extract.labelMemberMap (Extract.cluster_queries sim stopOrder rows threshold) := rfl
